import Mathlib

/-!
Verification development for the lorempicsum photo-gallery screen.

The definitions below are a shallow embedding of the TypeScript source,
chiefly the fullest revision `src/unnamed/part_000` (dimensions, blur
slider, greyscale toggle); `src/App.tsx` is the same code restricted to
the dimension fields. JavaScript numbers are embedded as `Int` where the
code stores integers and as `ℚ` where it performs division; network
effects are captured by an explicit environment (`Env`) mapping request
URLs to responses; `Promise.all` is `promiseAll`; React state updates
become explicit state-passing functions.
-/

namespace LoremPicsum

/-- Requested image width and height, the `imageDimensions` state of
`AppContent` and the `{ width, height }` objects passed through
`onClose` / `refreshImages`. -/
structure Dimensions where
  width : Int
  height : Int
deriving DecidableEq, Repr

/-- The full committed filter of the part_000 revision:
`imageDimensions`, `blurIntensity`, `isGreyscale`. Used to log which
filter a fetch batch was issued under. -/
structure Filter where
  dims : Dimensions
  blur : Int
  greyscale : Bool
deriving DecidableEq, Repr

/-- The `ImageItem` interface of the source: id, uri, photographer and
the scaled display dimensions (JS floats, embedded as rationals). -/
structure ImageItem where
  id : String
  uri : String
  photographer : String
  width : ℚ
  height : ℚ
deriving DecidableEq, Repr

/-! ## JavaScript `parseInt` -/

/-- Numeric value of a decimal digit character. -/
def digitVal (c : Char) : Nat := c.toNat - '0'.toNat

/-- Value of a list of decimal digit characters, most significant first. -/
def decimalVal (ds : List Char) : Nat :=
  ds.foldl (fun acc c => acc * 10 + digitVal c) 0

/-- Whether a character is a hexadecimal digit. -/
def isHexDigitChar (c : Char) : Bool :=
  c.isDigit || ('a' ≤ c && c ≤ 'f') || ('A' ≤ c && c ≤ 'F')

/-- Numeric value of a hexadecimal digit character. -/
def hexDigitVal (c : Char) : Nat :=
  if c.isDigit then c.toNat - '0'.toNat
  else if 'a' ≤ c && c ≤ 'f' then c.toNat - 'a'.toNat + 10
  else c.toNat - 'A'.toNat + 10

/-- Value of a list of hexadecimal digit characters, most significant first. -/
def hexVal (ds : List Char) : Nat :=
  ds.foldl (fun acc c => acc * 16 + hexDigitVal c) 0

/-- JavaScript whitespace skipped by `parseInt` (the common cases). -/
def isJsSpace (c : Char) : Bool :=
  c == ' ' || c == '\t' || c == '\n' || c == '\r'

/-- JavaScript `parseInt(s)` with the radix argument omitted, as used by
`validateDimensions` and `handleDone`: skip leading whitespace, read an
optional sign, interpret a `0x`/`0X` prefix as hexadecimal, otherwise
take the longest prefix of decimal digits; `none` models `NaN`. -/
def parseIntJS (s : String) : Option Int :=
  let cs := s.data.dropWhile isJsSpace
  let signAndRest : Bool × List Char :=
    match cs with
    | '-' :: t => (true, t)
    | '+' :: t => (false, t)
    | t => (false, t)
  let neg := signAndRest.1
  let body := signAndRest.2
  let magnitude : Option Nat :=
    match body with
    | '0' :: 'x' :: t =>
      let ds := t.takeWhile isHexDigitChar
      if ds.isEmpty then none else some (hexVal ds)
    | '0' :: 'X' :: t =>
      let ds := t.takeWhile isHexDigitChar
      if ds.isEmpty then none else some (hexVal ds)
    | t =>
      let ds := t.takeWhile Char.isDigit
      if ds.isEmpty then none else some (decimalVal ds)
  magnitude.map (fun m => if neg then -(m : Int) else (m : Int))

/-- A dimension input string is accepted by the sheet's validation when
JS `parseInt` yields an integer in `[100, 1000]`. -/
def DimValid (s : String) : Prop :=
  ∃ n, parseIntJS s = some n ∧ 100 ≤ n ∧ n ≤ 1000

instance (s : String) : Decidable (DimValid s) := by
  unfold DimValid
  cases h : parseIntJS s with
  | none => exact isFalse (by simp [h])
  | some n => exact decidable_of_iff (100 ≤ n ∧ n ≤ 1000) (by simp [h])

/-! ## Filter-sheet validation and commit (`BottomSheet`) -/

/-- The error message the source stores in `widthError`. -/
def widthRangeError : String := "Width must be between 100 and 1000"

/-- The error message the source stores in `heightError`. -/
def heightRangeError : String := "Height must be between 100 and 1000"

/-- Result record of `validateDimensions` in the source. -/
structure ValidationResult where
  isValid : Bool
  widthError : String
  heightError : String
deriving DecidableEq, Repr

/-- The source's `validateDimensions(newWidth, newHeight)`: parse each
field with `parseInt`, flag it when the parse is `NaN` or the value is
outside `[100, 1000]`; `isValid` is the JS truthiness test
`!widthError && !heightError`. -/
def validateDimensions (newWidth newHeight : String) : ValidationResult :=
  let widthNum := parseIntJS newWidth
  let heightNum := parseIntJS newHeight
  let widthError :=
    match widthNum with
    | none => widthRangeError
    | some n => if n < 100 ∨ 1000 < n then widthRangeError else ""
  let heightError :=
    match heightNum with
    | none => heightRangeError
    | some n => if n < 100 ∨ 1000 < n then heightRangeError else ""
  { isValid := widthError.isEmpty && heightError.isEmpty
    widthError := widthError
    heightError := heightError }

/-- The editable state of the `BottomSheet` component: the two text
inputs, the blur slider value, the greyscale switch, and the two
field-level error messages. Layout and animation state (content height,
keyboard height, focus) is omitted as it never flows into the data the
claims are about. -/
structure SheetState where
  width : String
  height : String
  localBlurIntensity : Int
  localIsGreyscale : Bool
  widthError : String
  heightError : String
deriving DecidableEq, Repr

/-- How `handleDone` invoked the `onClose` callback: not at all
(validation failed), with no arguments (values unchanged), or with the
new dimensions, blur and greyscale. -/
inductive CloseCall where
  | noCall
  | noArgs
  | withArgs (dims : Dimensions) (blur : Int) (greyscale : Bool)
deriving DecidableEq, Repr

/-- The source's `handleDone`: validate the two text fields, store the
field errors, and if valid compare the parsed values and the local
blur/greyscale against the committed ones, calling `onClose` with the
new values when anything differs and with no arguments otherwise.
Validity guarantees both `parseInt` calls succeed, so the `getD 0`
defaults are never used. -/
def handleDone (sheet : SheetState) (currentDimensions : Dimensions)
    (blurIntensity : Int) (isGreyscale : Bool) : SheetState × CloseCall :=
  let v := validateDimensions sheet.width sheet.height
  let sheet' := { sheet with widthError := v.widthError, heightError := v.heightError }
  if v.isValid then
    let newWidth := (parseIntJS sheet.width).getD 0
    let newHeight := (parseIntJS sheet.height).getD 0
    if newWidth ≠ currentDimensions.width ∨ newHeight ≠ currentDimensions.height ∨
        sheet.localBlurIntensity ≠ blurIntensity ∨ sheet.localIsGreyscale ≠ isGreyscale then
      (sheet', .withArgs { width := newWidth, height := newHeight }
        sheet.localBlurIntensity sheet.localIsGreyscale)
    else
      (sheet', .noArgs)
  else
    (sheet', .noCall)

/-- The `useEffect` body that runs when the sheet becomes visible:
`setWidth(currentDimensions.width.toString())`,
`setHeight(currentDimensions.height.toString())`,
`setLocalBlurIntensity(blurIntensity)`,
`setLocalIsGreyscale(isGreyscale)`. -/
def sheetOpenEffect (sheet : SheetState) (currentDimensions : Dimensions)
    (blurIntensity : Int) (isGreyscale : Bool) : SheetState :=
  { sheet with
    width := toString currentDimensions.width
    height := toString currentDimensions.height
    localBlurIntensity := blurIntensity
    localIsGreyscale := isGreyscale }

/-! ## The fetch pipeline (`fetchImageAndPhotographer`, `refreshImages`) -/

/-- What the code reads off a fetch response: `response.url` for the
image request and `(await response.json()).author` for the info
request. -/
structure Response where
  url : String
  author : String
deriving DecidableEq, Repr

/-- The external world of one fetch invocation: `fetch` maps a request
URL to a response or a rejection, `randomNumber` gives the value of
`Math.floor(1000 + Math.random() * 9000)` computed for request index
`i`, and `screenWidth` is `Dimensions.get('window').width`. -/
structure Env where
  fetch : String → Except String Response
  randomNumber : Nat → Nat
  screenWidth : ℚ

/-- The source's `calculateScaledDimensions(originalWidth,
originalHeight)`, with the module-level `screenWidth` constant made an
explicit argument: aspectRatio = h / w, scaledWidth = screenWidth,
scaledHeight = scaledWidth * aspectRatio. -/
def calculateScaledDimensions (screenWidth originalWidth originalHeight : ℚ) : ℚ × ℚ :=
  let aspectRatio := originalHeight / originalWidth
  let scaledWidth := screenWidth
  let scaledHeight := scaledWidth * aspectRatio
  (scaledWidth, scaledHeight)

/-- The source's `const blurParam = blur > 0 ? `&blur=${blur}` : ''`. -/
def blurParam (blur : Int) : String :=
  if 0 < blur then "&blur=" ++ toString blur else ""

/-- The source's `const greyscaleParam = greyscale ? '&grayscale' : ''`. -/
def greyscaleParam (greyscale : Bool) : String :=
  if greyscale then "&grayscale" else ""

/-- The randomized image request URL built in
`fetchImageAndPhotographer`, including the conditional blur and
grayscale query parameters of the part_000 revision. -/
def imageRequestUrl (width height : Int) (randomNumber : Nat) (blur : Int)
    (greyscale : Bool) : String :=
  "https://picsum.photos/" ++ toString width ++ "/" ++ toString height ++
    "?random=" ++ toString randomNumber ++ blurParam blur ++ greyscaleParam greyscale

/-- JS `String.prototype.split` with a one-character separator, over the
character list: splitting never yields an empty list, and adjacent or
leading/trailing separators yield empty segments. -/
def splitOnChar (sep : Char) : List Char → List (List Char)
  | [] => [[]]
  | c :: cs =>
    let rest := splitOnChar sep cs
    if c = sep then [] :: rest
    else
      match rest with
      | [] => [[c]]
      | r :: rs => (c :: r) :: rs

/-- JS `s.split(sep)` for a one-character separator. -/
def jsSplit (s : String) (sep : Char) : List String :=
  (splitOnChar sep s.data).map (fun l => { data := l })

/-- The source's `imageUrl.split('/')[4]`; a missing element turns into
the string "undefined" exactly as JS template interpolation would. -/
def extractImageId (imageUrl : String) : String :=
  (jsSplit imageUrl '/').getD 4 "undefined"

/-- The metadata request URL for an image id. -/
def infoRequestUrl (imageId : String) : String :=
  "https://picsum.photos/id/" ++ imageId ++ "/info"

/-- The `uri` stored in the returned `ImageItem`, with the conditional
blur/grayscale query string of the part_000 revision. -/
def galleryItemUri (imageId : String) (width height : Int) (blur : Int)
    (greyscale : Bool) : String :=
  "https://picsum.photos/id/" ++ imageId ++ "/" ++ toString width ++ "/" ++
    toString height ++
    (if 0 < blur then "?blur=" ++ toString blur else "") ++
    (if greyscale then (if 0 < blur then "&" else "?") ++ "grayscale" else "")

/-- The source's `fetchImageAndPhotographer(index, dimensions, blur,
greyscale)`: fetch a randomized image, take the image id out of the
response URL, fetch that id's info, and assemble the `ImageItem`. -/
def fetchImageAndPhotographer (env : Env) (index : Nat) (dimensions : Dimensions)
    (blur : Int) (greyscale : Bool) : Except String ImageItem := do
  let width := dimensions.width
  let height := dimensions.height
  let randomNumber := env.randomNumber index
  let response ← env.fetch (imageRequestUrl width height randomNumber blur greyscale)
  let imageUrl := response.url
  let imageId := extractImageId imageUrl
  let infoData ← env.fetch (infoRequestUrl imageId)
  let scaledDimensions := calculateScaledDimensions env.screenWidth (width : ℚ) (height : ℚ)
  pure
    { id := "image-" ++ toString index
      uri := galleryItemUri imageId width height blur greyscale
      photographer := infoData.author
      width := scaledDimensions.1
      height := scaledDimensions.2 }

/-- `Promise.all`: resolves with the results in request order when every
promise resolves, rejects as soon as any promise rejects. -/
def promiseAll {α : Type} : List (Except String α) → Except String (List α)
  | [] => .ok []
  | p :: ps => do
    let a ← p
    let as ← promiseAll ps
    pure (a :: as)

/-- The `Promise.all(Array.from({ length: 10 }, (_, i) => ...))` batch of
`refreshImages`. -/
def batchResults (env : Env) (dims : Dimensions) (blur : Int) (greyscale : Bool) :
    Except String (List ImageItem) :=
  promiseAll ((List.range 10).map fun i =>
    fetchImageAndPhotographer env i dims blur greyscale)

/-! ## `AppContent` state and handlers -/

/-- The state of `AppContent` that the claims concern:
`bottomSheetVisible`, `imageDimensions`, `images`, `loading`,
`blurIntensity`, `isGreyscale`, plus the log of `console.error` calls. -/
structure AppState where
  bottomSheetVisible : Bool
  imageDimensions : Dimensions
  images : List ImageItem
  loading : Bool
  blurIntensity : Int
  isGreyscale : Bool
  loggedErrors : List String
deriving DecidableEq, Repr

/-- Initial `useState` values of `AppContent`. -/
def initialAppState : AppState :=
  { bottomSheetVisible := false
    imageDimensions := { width := 900, height := 600 }
    images := []
    loading := true
    blurIntensity := 0
    isGreyscale := false
    loggedErrors := [] }

/-- The tail of `refreshImages` once the `Promise.all` settles: on
success `setImages(newImages)`, on rejection `console.error(...)`, and
`setLoading(false)` in the `finally` block either way. -/
def refreshResolve (s : AppState) : Except String (List ImageItem) → AppState
  | .ok newImages => { s with images := newImages, loading := false }
  | .error e => { s with loggedErrors := s.loggedErrors ++ [e], loading := false }

/-- The source's `refreshImages(newDimensions?, newBlurIntensity?,
newIsGreyscale?)` run to completion. `captured` is the component state
the callback closed over (the fallbacks for omitted arguments read the
closure, not any state updated just before the call), `s` is the state
the updates apply to. Returns the new state and a log of the filter the
batch was fetched under. -/
def refreshImages (env : Env) (captured s : AppState) (newDimensions : Option Dimensions)
    (newBlurIntensity : Option Int) (newIsGreyscale : Option Bool) :
    AppState × List Filter :=
  let s1 := { s with loading := true, images := [] }
  let dimensions := newDimensions.getD captured.imageDimensions
  let blurSetting := newBlurIntensity.getD captured.blurIntensity
  let greyscaleSetting := newIsGreyscale.getD captured.isGreyscale
  (refreshResolve s1 (batchResults env dimensions blurSetting greyscaleSetting),
    [{ dims := dimensions, blur := blurSetting, greyscale := greyscaleSetting }])

/-- The source's `handleBottomSheetClose`: hide the sheet; when any
argument is present, commit the provided fields and re-fetch with
`refreshImages(newDimensions || imageDimensions, newBlurIntensity,
newIsGreyscale)` (the `||` fallback reading the pre-update closure
state). -/
def handleBottomSheetClose (env : Env) (s : AppState) (newDimensions : Option Dimensions)
    (newBlurIntensity : Option Int) (newIsGreyscale : Option Bool) :
    AppState × List Filter :=
  let s1 := { s with bottomSheetVisible := false }
  if newDimensions.isSome || newBlurIntensity.isSome || newIsGreyscale.isSome then
    let s2 :=
      { s1 with
        imageDimensions := newDimensions.getD s1.imageDimensions
        blurIntensity := newBlurIntensity.getD s1.blurIntensity
        isGreyscale := newIsGreyscale.getD s1.isGreyscale }
    refreshImages env s s2 (some (newDimensions.getD s.imageDimensions))
      newBlurIntensity newIsGreyscale
  else
    (s1, [])

/-- Pressing the Done button at app level: run `handleDone` against the
committed filter and feed the resulting `onClose` call (if any) into
`handleBottomSheetClose`. Returns the new app state, the new sheet
state, and the fetch batches issued synchronously by these handlers.
This is not the program's whole network activity for a changed commit:
`refreshImages` is a `useCallback` keyed on `[imageDimensions,
blurIntensity, isGreyscale]`, and the source also contains
`useEffect(() => { refreshImages(); }, [refreshImages])`, so once a
commit changes any of those states the callback's identity changes and
the effect re-fires after the render, issuing one more batch;
`doneClickAndEffect` models that full cycle. -/
def doneClick (env : Env) (app : AppState) (sheet : SheetState) :
    AppState × SheetState × List Filter :=
  let r := handleDone sheet app.imageDimensions app.blurIntensity app.isGreyscale
  match r.2 with
  | .noCall => (app, r.1, [])
  | .noArgs =>
    let c := handleBottomSheetClose env app none none none
    (c.1, r.1, c.2)
  | .withArgs d b g =>
    let c := handleBottomSheetClose env app (some d) (some b) (some g)
    (c.1, r.1, c.2)

/-- The body of `useEffect(() => { refreshImages(); }, [refreshImages])`:
a call of `refreshImages` with no arguments, whose closure is the
component state current at that render. -/
def refreshImagesEffect (env : Env) (s : AppState) : AppState × List Filter :=
  refreshImages env s s none none none

/-- A Done press followed by the React render cycle it causes. In the
`withArgs` branch `handleBottomSheetClose` runs the filter setters
(`setImageDimensions` always receives a fresh object), so the
`useCallback` dependencies of `refreshImages` change, its identity
changes, and `useEffect(() => { refreshImages(); }, [refreshImages])`
re-fires against the newly committed state — a second fetch batch under
the same new filter, possibly against a later network environment
`env'`. The `noArgs` and `noCall` branches run no filter setter, so the
effect does not re-fire. -/
def doneClickAndEffect (env env' : Env) (app : AppState) (sheet : SheetState) :
    AppState × SheetState × List Filter :=
  let r := handleDone sheet app.imageDimensions app.blurIntensity app.isGreyscale
  match r.2 with
  | .noCall => (app, r.1, [])
  | .noArgs =>
    let c := handleBottomSheetClose env app none none none
    (c.1, r.1, c.2)
  | .withArgs d b g =>
    let c := handleBottomSheetClose env app (some d) (some b) (some g)
    let e := refreshImagesEffect env' c.1
    (e.1, r.1, c.2 ++ e.2)

/-! ## Interleaving of concurrent `refreshImages` invocations

Each call of `refreshImages` splits into a synchronous prefix (set the
loading flag, clear the list) and an asynchronous completion (apply the
settled `Promise.all`). Re-invocation while a batch is in flight
interleaves these halves, so they are modelled as separate actions over
a list of invocations. -/

/-- One in-flight `refreshImages` invocation: the environment it fetches
from and the filter it was called with. -/
structure Invocation where
  env : Env
  dims : Dimensions
  blur : Int
  greyscale : Bool

/-- The settled value of an invocation's `Promise.all` batch. -/
def Invocation.result (inv : Invocation) : Except String (List ImageItem) :=
  batchResults inv.env inv.dims inv.blur inv.greyscale

/-- The slice of `AppContent` state the fetch pipeline touches. -/
structure GalleryState where
  images : List ImageItem
  loading : Bool
  loggedErrors : List String
deriving DecidableEq, Repr

/-- Initial `useState` values: empty list, loading true. -/
def initialGalleryState : GalleryState :=
  { images := [], loading := true, loggedErrors := [] }

/-- Either half of an invocation: `start i` is invocation `i`'s
synchronous prefix (`setLoading(true); setImages([])`), `finish i` is
its completion handler. -/
inductive FetchAction where
  | start (i : Nat)
  | finish (i : Nat)
deriving DecidableEq, Repr

/-- One step of the interleaved execution. The completion handler
applies its own batch unconditionally — the source checks no generation
token and no loading flag before `setImages`. -/
def stepGallery (invs : List Invocation) (s : GalleryState) : FetchAction → GalleryState
  | .start _ => { s with loading := true, images := [] }
  | .finish i =>
    match invs[i]? with
    | some inv =>
      match inv.result with
      | .ok newImages => { s with images := newImages, loading := false }
      | .error e => { s with loggedErrors := s.loggedErrors ++ [e], loading := false }
    | none => s

/-- Run a sequence of interleaved actions. -/
def runGallery (invs : List Invocation) (s : GalleryState)
    (actions : List FetchAction) : GalleryState :=
  actions.foldl (stepGallery invs) s

/-! ## UI event machine (committed filter and sheet drafts) -/

/-- Initial `useState` values of the `BottomSheet`, rendered against the
initial committed filter. -/
def initialSheetState : SheetState :=
  { width := toString initialAppState.imageDimensions.width
    height := toString initialAppState.imageDimensions.height
    localBlurIntensity := initialAppState.blurIntensity
    localIsGreyscale := initialAppState.isGreyscale
    widthError := ""
    heightError := "" }

/-- Combined screen state: `AppContent` plus its `BottomSheet`. -/
structure UiState where
  app : AppState
  sheet : SheetState
deriving DecidableEq, Repr

/-- The combined initial state. -/
def initialUiState : UiState :=
  { app := initialAppState, sheet := initialSheetState }

/-- User-driven events of the screen. -/
inductive UiEvent where
  | setWidthText (t : String)
  | setHeightText (t : String)
  | sliderChange (v : Int)
  | greyscaleToggle (b : Bool)
  | openSheet
  | dismissSheet
  | pressDone
  | pullToRefresh
deriving DecidableEq, Repr

/-- Which event values the UI components can actually emit: the blur
slider is declared with `minimumValue={0} maximumValue={10} step={1}`,
so its `onValueChange` only ever delivers integers in `[0, 10]`. -/
def ValidUiEvent : UiEvent → Prop
  | .sliderChange v => 0 ≤ v ∧ v ≤ 10
  | _ => True

/-- One UI event processed by the handlers of the source. `openSheet` is
`handleFilterPress` followed by the sheet's visible-effect;
`dismissSheet` is the overlay tap calling `onClose()`; `pressDone` is
the Done button; `pullToRefresh` is `handleRefresh`. -/
def stepUi (env : Env) (s : UiState) : UiEvent → UiState
  | .setWidthText t => { s with sheet := { s.sheet with width := t } }
  | .setHeightText t => { s with sheet := { s.sheet with height := t } }
  | .sliderChange v => { s with sheet := { s.sheet with localBlurIntensity := v } }
  | .greyscaleToggle b => { s with sheet := { s.sheet with localIsGreyscale := b } }
  | .openSheet =>
    let app' := { s.app with bottomSheetVisible := true }
    { app := app'
      sheet := sheetOpenEffect s.sheet app'.imageDimensions app'.blurIntensity
        app'.isGreyscale }
  | .dismissSheet =>
    { s with app := (handleBottomSheetClose env s.app none none none).1 }
  | .pressDone =>
    let r := doneClick env s.app s.sheet
    { app := r.1, sheet := r.2.1 }
  | .pullToRefresh =>
    { s with
      app := (refreshImages env s.app { s.app with loading := true, images := [] }
        none none none).1 }

/-- States reachable from the initial screen state by valid UI events;
the network environment may differ from step to step. -/
inductive ReachableUi : UiState → Prop where
  | init : ReachableUi initialUiState
  | step (env : Env) (e : UiEvent) (s : UiState) :
    ReachableUi s → ValidUiEvent e → ReachableUi (stepUi env s e)

/-! ## Concrete test fixtures for witnesses and counterexamples -/

/-- An environment whose every fetch succeeds, serving image id 11 with
author Alice. -/
def okEnvA : Env :=
  { fetch := fun _ => .ok { url := "https://picsum.photos/id/11/900/600", author := "Alice" }
    randomNumber := fun _ => 1234
    screenWidth := 393 }

/-- An environment whose every fetch succeeds, serving image id 22 with
author Bob. -/
def okEnvB : Env :=
  { fetch := fun _ => .ok { url := "https://picsum.photos/id/22/900/600", author := "Bob" }
    randomNumber := fun _ => 5678
    screenWidth := 393 }

/-- An environment whose every fetch rejects. -/
def failEnv : Env :=
  { fetch := fun _ => .error "network down"
    randomNumber := fun _ => 1234
    screenWidth := 393 }

/-- The scaled display dimensions of a 900 x 600 request on a
393-point-wide screen. -/
def scaledDemo : ℚ × ℚ :=
  calculateScaledDimensions 393 ((900 : Int) : ℚ) ((600 : Int) : ℚ)

/-- The batch `okEnvA` produces at 900 x 600 with no blur or greyscale. -/
def itemsA : List ImageItem :=
  (List.range 10).map fun i =>
    { id := "image-" ++ toString i
      uri := "https://picsum.photos/id/11/900/600"
      photographer := "Alice"
      width := scaledDemo.1
      height := scaledDemo.2 }

/-- The batch `okEnvB` produces at 900 x 600 with no blur or greyscale. -/
def itemsB : List ImageItem :=
  (List.range 10).map fun i =>
    { id := "image-" ++ toString i
      uri := "https://picsum.photos/id/22/900/600"
      photographer := "Bob"
      width := scaledDemo.1
      height := scaledDemo.2 }

/-- A refresh invocation running against `okEnvA`. -/
def invocationA : Invocation :=
  { env := okEnvA, dims := { width := 900, height := 600 }, blur := 0, greyscale := false }

/-- A refresh invocation running against `okEnvB`. -/
def invocationB : Invocation :=
  { env := okEnvB, dims := { width := 900, height := 600 }, blur := 0, greyscale := false }

/-- An app state with the filter sheet open over the initial committed
filter. -/
def openApp : AppState := { initialAppState with bottomSheetVisible := true }

/-- A sheet draft whose width and height are both out of range. -/
def badSheet : SheetState :=
  { width := "50", height := "1500", localBlurIntensity := 0
    localIsGreyscale := false, widthError := "", heightError := "" }

/-- A valid sheet draft differing from the initial committed filter. -/
def goodSheet : SheetState :=
  { width := "300", height := "400", localBlurIntensity := 2
    localIsGreyscale := true, widthError := "", heightError := "" }

/-- A valid sheet draft equal to the initial committed filter in every
field. -/
def unchangedSheet : SheetState :=
  { width := "900", height := "600", localBlurIntensity := 0
    localIsGreyscale := false, widthError := "", heightError := "" }

/-- The first item `okEnvA` yields at 900 x 600. -/
def itemA0 : ImageItem :=
  { id := "image-" ++ toString 0
    uri := "https://picsum.photos/id/11/900/600"
    photographer := "Alice"
    width := scaledDemo.1
    height := scaledDemo.2 }

/-! ## Helper lemmas: characters of rendered numbers, substring occurrence -/

/-- Occurrence of `pat` as a contiguous substring of `s`. -/
def strContains (s pat : String) : Prop :=
  ∃ a b, s.data = a ++ pat.data ++ b

theorem mem_of_strContains {s pat : String} {c : Char} (hc : c ∈ pat.data)
    (h : strContains s pat) : c ∈ s.data := by
  obtain ⟨a, b, hab⟩ := h
  rw [hab]
  simp [hc]

theorem digitChar_isDigit : ∀ k, k < 10 → (Nat.digitChar k).isDigit = true := by decide

theorem toDigitsCore_isDigit (fuel : Nat) : ∀ (n : Nat) (ds : List Char),
    (∀ c ∈ ds, c.isDigit = true) →
    ∀ c ∈ Nat.toDigitsCore 10 fuel n ds, c.isDigit = true := by
  induction fuel with
  | zero =>
    intro n ds hds c hc
    rw [Nat.toDigitsCore] at hc
    exact hds c hc
  | succ fuel ih =>
    intro n ds hds c hc
    rw [Nat.toDigitsCore] at hc
    have hcons : ∀ c ∈ Nat.digitChar (n % 10) :: ds, c.isDigit = true := by
      intro c hc'
      rcases List.mem_cons.mp hc' with h | h
      · subst h
        exact digitChar_isDigit _ (Nat.mod_lt _ (by decide))
      · exact hds c h
    by_cases h0 : n / 10 = 0
    · rw [if_pos h0] at hc
      exact hcons c hc
    · rw [if_neg h0] at hc
      exact ih _ _ hcons c hc

theorem natRepr_isDigit (n : Nat) : ∀ c ∈ (Nat.repr n).data, c.isDigit = true := by
  intro c hc
  simp only [Nat.repr, Nat.toDigits, List.asString] at hc
  exact toDigitsCore_isDigit (n + 1) n [] (by intro c h; cases h) c hc

theorem natToString_isDigit (n : Nat) : ∀ c ∈ (toString n).data, c.isDigit = true :=
  natRepr_isDigit n

theorem intToString_chars (i : Int) :
    ∀ c ∈ (toString i).data, c.isDigit = true ∨ c = '-' := by
  cases i with
  | ofNat m =>
    intro c hc
    exact Or.inl (natToString_isDigit m c hc)
  | negSucc m =>
    intro c hc
    have hdata : (toString (Int.negSucc m)).data = '-' :: (toString (Nat.succ m)).data := rfl
    rw [hdata] at hc
    rcases List.mem_cons.mp hc with h | h
    · exact Or.inr h
    · exact Or.inl (natToString_isDigit _ c h)

theorem not_mem_natToString {c : Char} (hc : c.isDigit = false) (n : Nat) :
    c ∉ (toString n).data := fun h => by
  have := natToString_isDigit n c h
  rw [hc] at this
  exact Bool.false_ne_true this

theorem not_mem_intToString {c : Char} (hc1 : c.isDigit = false) (hc2 : c ≠ '-') (i : Int) :
    c ∉ (toString i).data := fun h => by
  rcases intToString_chars i c h with h' | h'
  · rw [hc1] at h'
    exact Bool.false_ne_true h'
  · exact hc2 h'

theorem charNotIn_append {c : Char} {s t : String} (hs : c ∉ s.data) (ht : c ∉ t.data) :
    c ∉ (s ++ t).data := by
  rw [String.data_append]
  intro h
  rcases List.mem_append.mp h with h' | h'
  · exact hs h'
  · exact ht h'

theorem b_not_mem_blurParam {blur : Int} (hb : ¬ 0 < blur) :
    'b' ∉ (blurParam blur).data := by
  rw [blurParam, if_neg hb]
  intro h
  cases h

theorem b_not_mem_greyscaleParam (grey : Bool) : 'b' ∉ (greyscaleParam grey).data := by
  cases grey with
  | true => exact by decide
  | false => intro h; cases h

theorem g_not_mem_blurParam (blur : Int) : 'g' ∉ (blurParam blur).data := by
  rw [blurParam]
  by_cases hb : 0 < blur
  · rw [if_pos hb]
    exact charNotIn_append (by decide) (not_mem_intToString (by decide) (by decide) blur)
  · rw [if_neg hb]
    intro h
    cases h

theorem g_not_mem_greyscaleParam_false : 'g' ∉ (greyscaleParam false).data := by
  rw [greyscaleParam, if_neg]
  · intro h
    cases h
  · simp

theorem b_not_mem_imageRequestUrl (w h : Int) (rnd : Nat) (blur : Int) (grey : Bool)
    (hb : ¬ 0 < blur) : 'b' ∉ (imageRequestUrl w h rnd blur grey).data := by
  unfold imageRequestUrl
  exact charNotIn_append
    (charNotIn_append
      (charNotIn_append
        (charNotIn_append
          (charNotIn_append
            (charNotIn_append
              (charNotIn_append (by decide)
                (not_mem_intToString (by decide) (by decide) w))
              (by decide))
            (not_mem_intToString (by decide) (by decide) h))
          (by decide))
        (not_mem_natToString (by decide) rnd))
      (b_not_mem_blurParam hb))
    (b_not_mem_greyscaleParam grey)

theorem g_not_mem_imageRequestUrl (w h : Int) (rnd : Nat) (blur : Int) :
    'g' ∉ (imageRequestUrl w h rnd blur false).data := by
  unfold imageRequestUrl
  exact charNotIn_append
    (charNotIn_append
      (charNotIn_append
        (charNotIn_append
          (charNotIn_append
            (charNotIn_append
              (charNotIn_append (by decide)
                (not_mem_intToString (by decide) (by decide) w))
              (by decide))
            (not_mem_intToString (by decide) (by decide) h))
          (by decide))
        (not_mem_natToString (by decide) rnd))
      (g_not_mem_blurParam blur))
    g_not_mem_greyscaleParam_false

theorem strContains_imageRequestUrl_blur (w h : Int) (rnd : Nat) (blur : Int) (grey : Bool)
    (hb : 0 < blur) : strContains (imageRequestUrl w h rnd blur grey) "blur=" := by
  refine ⟨("https://picsum.photos/" ++ toString w ++ "/" ++ toString h ++ "?random=" ++
    toString rnd).data ++ ['&'], (toString blur).data ++ (greyscaleParam grey).data, ?_⟩
  have hbp : ("&blur=" : String).data = '&' :: ("blur=" : String).data := rfl
  simp only [imageRequestUrl, blurParam, if_pos hb, String.data_append, hbp,
    List.append_assoc, List.cons_append, List.nil_append]

theorem strContains_imageRequestUrl_grayscale (w h : Int) (rnd : Nat) (blur : Int) :
    strContains (imageRequestUrl w h rnd blur true) "grayscale" := by
  refine ⟨("https://picsum.photos/" ++ toString w ++ "/" ++ toString h ++ "?random=" ++
    toString rnd ++ blurParam blur).data ++ ['&'], [], ?_⟩
  have hgp : ("&grayscale" : String).data = '&' :: ("grayscale" : String).data := rfl
  simp only [imageRequestUrl, greyscaleParam, if_pos, String.data_append, hgp,
    List.append_assoc, List.cons_append, List.nil_append, List.append_nil, if_true]

/-! ## Helper lemmas: `promiseAll` and the fetch pipeline -/

theorem except_error_bind {α β : Type} (e : String) (f : α → Except String β) :
    (Except.error e >>= f) = Except.error e := rfl

theorem except_ok_bind {α β : Type} (a : α) (f : α → Except String β) :
    (Except.ok a >>= f) = f a := rfl

theorem except_pure {α : Type} (a : α) :
    (pure a : Except String α) = Except.ok a := rfl

theorem promiseAll_ok_iff {α : Type} (ps : List (Except String α)) (as : List α) :
    promiseAll ps = .ok as ↔ ps = as.map Except.ok := by
  induction ps generalizing as with
  | nil =>
    cases as with
    | nil => simp [promiseAll]
    | cons a as => simp [promiseAll]
  | cons p ps ih =>
    constructor
    · intro hok
      cases p with
      | error e =>
        rw [promiseAll, except_error_bind] at hok
        cases hok
      | ok a =>
        rw [promiseAll, except_ok_bind] at hok
        cases hps : promiseAll ps with
        | error e =>
          rw [hps, except_error_bind] at hok
          cases hok
        | ok as' =>
          rw [hps, except_ok_bind, except_pure] at hok
          cases hok
          simp [List.map, (ih as').mp hps]
    · intro hmap
      cases as with
      | nil => simp at hmap
      | cons a as =>
        simp only [List.map, List.cons.injEq] at hmap
        obtain ⟨hp, hps⟩ := hmap
        subst hp
        rw [promiseAll, except_ok_bind, (ih as).mpr hps, except_ok_bind, except_pure]

theorem promiseAll_error_of_mem {α : Type} (ps : List (Except String α)) (e : String)
    (hmem : Except.error e ∈ ps) : ∃ e', promiseAll ps = .error e' := by
  induction ps with
  | nil => cases hmem
  | cons p ps ih =>
    rcases List.mem_cons.mp hmem with h | h
    · subst h
      exact ⟨e, rfl⟩
    · cases p with
      | error e'' => exact ⟨e'', rfl⟩
      | ok a =>
        obtain ⟨e', he'⟩ := ih h
        refine ⟨e', ?_⟩
        rw [promiseAll, he']
        rfl

theorem batchResults_ok_iff (env : Env) (dims : Dimensions) (blur : Int)
    (greyscale : Bool) (items : List ImageItem) :
    batchResults env dims blur greyscale = .ok items ↔
      (List.range 10).map (fun i => fetchImageAndPhotographer env i dims blur greyscale) =
        items.map Except.ok := by
  rw [batchResults, promiseAll_ok_iff]

/-- Eliminating a successful run of the fetch pipeline into its two
underlying requests: the randomized image request, whose response URL
yields the image id, and the info request for that id, whose author
field becomes the photographer. -/
theorem fetchImageAndPhotographer_ok_elim (env : Env) (index : Nat)
    (dimensions : Dimensions) (blur : Int) (greyscale : Bool) (item : ImageItem)
    (hok : fetchImageAndPhotographer env index dimensions blur greyscale = .ok item) :
    ∃ r r',
      env.fetch (imageRequestUrl dimensions.width dimensions.height
        (env.randomNumber index) blur greyscale) = .ok r ∧
      env.fetch (infoRequestUrl (extractImageId r.url)) = .ok r' ∧
      item =
        { id := "image-" ++ toString index
          uri := galleryItemUri (extractImageId r.url) dimensions.width
            dimensions.height blur greyscale
          photographer := r'.author
          width := (calculateScaledDimensions env.screenWidth
            (dimensions.width : ℚ) (dimensions.height : ℚ)).1
          height := (calculateScaledDimensions env.screenWidth
            (dimensions.width : ℚ) (dimensions.height : ℚ)).2 } := by
  rw [fetchImageAndPhotographer] at hok
  cases h1 : env.fetch (imageRequestUrl dimensions.width dimensions.height
      (env.randomNumber index) blur greyscale) with
  | error e =>
    rw [h1, except_error_bind] at hok
    cases hok
  | ok r =>
    rw [h1] at hok
    simp only [except_ok_bind] at hok
    cases h2 : env.fetch (infoRequestUrl (extractImageId r.url)) with
    | error e =>
      rw [h2] at hok
      simp only [except_error_bind] at hok
      cases hok
    | ok r' =>
      rw [h2] at hok
      simp only [except_ok_bind, except_pure] at hok
      cases hok
      exact ⟨r, r', rfl, h2, rfl⟩

/-! ## C1 -/

/-- C1: for every batch of 10 concurrent fetches, if any single fetch
fails then the whole batch fails: an error is logged, the loading flag
is cleared, and the displayed image list is left empty — no partial
subset of the successful results is ever shown. -/
theorem c1_single_failure_fails_whole_batch (env : Env) (captured s : AppState)
    (newDimensions : Option Dimensions) (newBlurIntensity : Option Int)
    (newIsGreyscale : Option Bool) (i : Nat) (e : String) (hi : i < 10)
    (hfail : fetchImageAndPhotographer env i (newDimensions.getD captured.imageDimensions)
      (newBlurIntensity.getD captured.blurIntensity)
      (newIsGreyscale.getD captured.isGreyscale) = .error e) :
    (refreshImages env captured s newDimensions newBlurIntensity newIsGreyscale).1.images = [] ∧
    (refreshImages env captured s newDimensions newBlurIntensity newIsGreyscale).1.loading = false ∧
    ∃ e', (refreshImages env captured s newDimensions newBlurIntensity
      newIsGreyscale).1.loggedErrors = s.loggedErrors ++ [e'] := by
  obtain ⟨e', he'⟩ := promiseAll_error_of_mem
    ((List.range 10).map fun j => fetchImageAndPhotographer env j
      (newDimensions.getD captured.imageDimensions)
      (newBlurIntensity.getD captured.blurIntensity)
      (newIsGreyscale.getD captured.isGreyscale)) e
    (List.mem_map.mpr ⟨i, List.mem_range.mpr hi, hfail⟩)
  have hbatch : batchResults env (newDimensions.getD captured.imageDimensions)
      (newBlurIntensity.getD captured.blurIntensity)
      (newIsGreyscale.getD captured.isGreyscale) = .error e' := he'
  refine ⟨?_, ?_, e', ?_⟩ <;>
    simp only [refreshImages, hbatch, refreshResolve]

/-- Witness for C1 at a concrete failing environment. -/
theorem c1_single_failure_fails_whole_batch_witness :
    (refreshImages failEnv initialAppState initialAppState none none none).1.images = [] ∧
    (refreshImages failEnv initialAppState initialAppState none none none).1.loading = false ∧
    ∃ e', (refreshImages failEnv initialAppState initialAppState none none
      none).1.loggedErrors = initialAppState.loggedErrors ++ [e'] :=
  c1_single_failure_fails_whole_batch failEnv initialAppState initialAppState
    none none none 0 "network down" (by decide) rfl

/-! ## C3 -/

theorem batchResults_ok_pointwise (env : Env) (dims : Dimensions) (blur : Int)
    (greyscale : Bool) (items : List ImageItem)
    (hok : batchResults env dims blur greyscale = .ok items) :
    items.length = 10 ∧ ∀ i, i < 10 → ∃ item, items.get? i = some item ∧
      fetchImageAndPhotographer env i dims blur greyscale = .ok item := by
  rw [batchResults_ok_iff] at hok
  have hlen : items.length = 10 := by
    have hl := congrArg List.length hok
    simpa using hl.symm
  refine ⟨hlen, ?_⟩
  intro i hi
  have h1 : ((List.range 10).map fun j =>
      fetchImageAndPhotographer env j dims blur greyscale).get? i =
      (items.map Except.ok).get? i := by rw [hok]
  rw [List.get?_map, List.get?_map, List.get?_range hi] at h1
  cases hitem : items.get? i with
  | none =>
    rw [hitem] at h1
    cases h1
  | some item =>
    rw [hitem] at h1
    simp only [Option.map_some'] at h1
    injection h1 with h2
    exact ⟨item, rfl, h2⟩

/-- C3: every successful batch has exactly 10 items and the item at list
index i is the `ImageItem` produced by request i, in original
request-index order. -/
theorem c3_results_in_request_order (env : Env) (dims : Dimensions) (blur : Int)
    (greyscale : Bool) (items : List ImageItem)
    (hok : batchResults env dims blur greyscale = .ok items) :
    items.length = 10 ∧ ∀ i, i < 10 → ∃ item, items.get? i = some item ∧
      fetchImageAndPhotographer env i dims blur greyscale = .ok item :=
  batchResults_ok_pointwise env dims blur greyscale items hok

/-- Witness for C3 at a concrete successful environment. -/
theorem c3_results_in_request_order_witness :
    itemsA.length = 10 ∧ ∀ i, i < 10 → ∃ item, itemsA.get? i = some item ∧
      fetchImageAndPhotographer okEnvA i { width := 900, height := 600 } 0 false =
        .ok item :=
  c3_results_in_request_order okEnvA { width := 900, height := 600 } 0 false itemsA rfl

/-! ## C5 and C7: interleaved invocations -/

theorem runGallery_cons (invs : List Invocation) (s : GalleryState) (a : FetchAction)
    (as : List FetchAction) :
    runGallery invs s (a :: as) = runGallery invs (stepGallery invs s a) as := rfl

theorem stepGallery_finish_ok (invs : List Invocation) (s : GalleryState) (i : Nat)
    (inv : Invocation) (items : List ImageItem) (hget : invs[i]? = some inv)
    (hres : inv.result = .ok items) :
    stepGallery invs s (.finish i) = { s with images := items, loading := false } := by
  simp [stepGallery, hget, hres]

theorem runGallery_single_batch (invs : List Invocation) (s : GalleryState)
    (hs : s.images = [] ∨ ∃ inv ∈ invs, inv.result = .ok s.images)
    (actions : List FetchAction) :
    (runGallery invs s actions).images = [] ∨
      ∃ inv ∈ invs, inv.result = .ok (runGallery invs s actions).images := by
  induction actions generalizing s with
  | nil => exact hs
  | cons a as ih =>
    rw [runGallery_cons]
    apply ih
    cases a with
    | start i => exact Or.inl rfl
    | finish i =>
      cases hget : invs[i]? with
      | none => simpa [stepGallery, hget] using hs
      | some inv =>
        cases hres : inv.result with
        | ok items =>
          right
          exact ⟨inv, List.getElem?_mem hget, by simp [stepGallery, hget, hres]⟩
        | error e => simpa [stepGallery, hget, hres] using hs

/-- Counterexample to C5 as stated: two overlapping invocations where
the superseded first batch resolves last. After `[start 0, start 1,
finish 1]` the newer batch is displayed, but the late completion of the
superseded invocation 0 then overwrites it — nothing in the code guards
against staleness. -/
theorem c5_counterexample_stale_overwrite :
    invocationA.result = .ok itemsA ∧
    invocationB.result = .ok itemsB ∧
    (runGallery [invocationA, invocationB] initialGalleryState
      [.start 0, .start 1, .finish 1]).images = itemsB ∧
    (runGallery [invocationA, invocationB] initialGalleryState
      [.start 0, .start 1, .finish 1, .finish 0]).images = itemsA ∧
    itemsA ≠ itemsB :=
  ⟨rfl, rfl, rfl, rfl, by decide⟩

/-- C5 amended: a late-arriving successful batch from a superseded
invocation is always written to the displayed list — the completion
handler checks no generation token and no loading flag, so after
`start a; start b; finish b; finish a` the displayed list is the
superseded invocation a's batch. -/
theorem c5_late_batch_overwrites (invs : List Invocation) (a b : Nat)
    (invLate : Invocation) (items : List ImageItem)
    (ha : invs[a]? = some invLate) (hres : invLate.result = .ok items) :
    (runGallery invs initialGalleryState
      [.start a, .start b, .finish b, .finish a]).images = items := by
  have h4 : runGallery invs initialGalleryState [.start a, .start b, .finish b, .finish a]
      = stepGallery invs
          (runGallery invs initialGalleryState [.start a, .start b, .finish b])
          (.finish a) := rfl
  rw [h4, stepGallery_finish_ok invs _ a invLate items ha hres]

/-- Witness for the amended C5 at concrete interleaved invocations. -/
theorem c5_late_batch_overwrites_witness :
    (runGallery [invocationA, invocationB] initialGalleryState
      [.start 0, .start 1, .finish 0, .finish 1]).images = itemsB :=
  c5_late_batch_overwrites [invocationA, invocationB] 1 0 invocationB itemsB rfl rfl

/-- C7: on every refresh the displayed list is fully replaced, never
patched: every start action clears the list, every successful
completion replaces it wholesale with its own batch, and in every
reachable state the displayed list is empty or exactly the result of a
single invocation's batch, fetched under that invocation's one filter —
no mixing of items fetched under different filters. -/
theorem c7_displayed_list_single_batch :
    (∀ invs actions,
      (runGallery invs initialGalleryState actions).images = [] ∨
      ∃ inv ∈ invs, inv.result = .ok (runGallery invs initialGalleryState actions).images) ∧
    (∀ (invs : List Invocation) (s : GalleryState) (i : Nat),
      (stepGallery invs s (.start i)).images = []) ∧
    (∀ invs s i inv items, invs[i]? = some inv → inv.result = .ok items →
      (stepGallery invs s (.finish i)).images = items) := by
  refine ⟨?_, ?_, ?_⟩
  · intro invs actions
    exact runGallery_single_batch invs initialGalleryState (Or.inl rfl) actions
  · intro invs s i
    rfl
  · intro invs s i inv items hget hres
    rw [stepGallery_finish_ok invs s i inv items hget hres]

/-- Witness for C7 at a concrete invocation list and trace. -/
theorem c7_displayed_list_single_batch_witness :
    (stepGallery [invocationA] initialGalleryState (.finish 0)).images = itemsA :=
  c7_displayed_list_single_batch.2.2 [invocationA] initialGalleryState 0
    invocationA itemsA rfl rfl

/-! ## C2 and C4: validation and commit -/

theorem validateDimensions_widthError_eq (a b : String) :
    (validateDimensions a b).widthError = if DimValid a then "" else widthRangeError := by
  unfold validateDimensions
  dsimp only
  cases hpa : parseIntJS a with
  | none =>
    dsimp only
    rw [if_neg]
    intro ⟨n, hn, _⟩
    rw [hpa] at hn
    cases hn
  | some n =>
    dsimp only
    by_cases h : n < 100 ∨ 1000 < n
    · rw [if_pos h, if_neg]
      intro ⟨m, hm, hm1, hm2⟩
      rw [hpa] at hm
      injection hm with hm
      omega
    · rw [if_neg h, if_pos]
      exact ⟨n, hpa, by omega, by omega⟩

theorem validateDimensions_heightError_eq (a b : String) :
    (validateDimensions a b).heightError = if DimValid b then "" else heightRangeError := by
  unfold validateDimensions
  dsimp only
  cases hpb : parseIntJS b with
  | none =>
    dsimp only
    rw [if_neg]
    intro ⟨n, hn, _⟩
    rw [hpb] at hn
    cases hn
  | some n =>
    dsimp only
    by_cases h : n < 100 ∨ 1000 < n
    · rw [if_pos h, if_neg]
      intro ⟨m, hm, hm1, hm2⟩
      rw [hpb] at hm
      injection hm with hm
      omega
    · rw [if_neg h, if_pos]
      exact ⟨n, hpb, by omega, by omega⟩

theorem validateDimensions_isValid_iff (a b : String) :
    (validateDimensions a b).isValid = true ↔ DimValid a ∧ DimValid b := by
  have hw := validateDimensions_widthError_eq a b
  have hh := validateDimensions_heightError_eq a b
  have hvv : (validateDimensions a b).isValid =
      ((validateDimensions a b).widthError.isEmpty &&
        (validateDimensions a b).heightError.isEmpty) := by
    unfold validateDimensions
    rfl
  rw [hvv, hw, hh]
  by_cases ha : DimValid a <;> by_cases hb : DimValid b <;>
    simp [ha, hb, widthRangeError, heightRangeError] <;> decide

theorem refreshResolve_imageDimensions (s : AppState) (r : Except String (List ImageItem)) :
    (refreshResolve s r).imageDimensions = s.imageDimensions := by cases r <;> rfl

theorem refreshResolve_blurIntensity (s : AppState) (r : Except String (List ImageItem)) :
    (refreshResolve s r).blurIntensity = s.blurIntensity := by cases r <;> rfl

theorem refreshResolve_isGreyscale (s : AppState) (r : Except String (List ImageItem)) :
    (refreshResolve s r).isGreyscale = s.isGreyscale := by cases r <;> rfl

theorem refreshResolve_bottomSheetVisible (s : AppState) (r : Except String (List ImageItem)) :
    (refreshResolve s r).bottomSheetVisible = s.bottomSheetVisible := by cases r <;> rfl

theorem handleBottomSheetClose_some (env : Env) (s : AppState) (d : Dimensions)
    (b : Int) (g : Bool) :
    (handleBottomSheetClose env s (some d) (some b) (some g)).2 =
      [{ dims := d, blur := b, greyscale := g }] ∧
    (handleBottomSheetClose env s (some d) (some b) (some g)).1.imageDimensions = d ∧
    (handleBottomSheetClose env s (some d) (some b) (some g)).1.blurIntensity = b ∧
    (handleBottomSheetClose env s (some d) (some b) (some g)).1.isGreyscale = g ∧
    (handleBottomSheetClose env s (some d) (some b) (some g)).1.bottomSheetVisible = false := by
  unfold handleBottomSheetClose refreshImages
  simp [refreshResolve_imageDimensions, refreshResolve_blurIntensity,
    refreshResolve_isGreyscale, refreshResolve_bottomSheetVisible]

theorem handleBottomSheetClose_none (env : Env) (s : AppState) :
    handleBottomSheetClose env s none none none =
      ({ s with bottomSheetVisible := false }, []) := rfl

theorem handleDone_invalid (sheet : SheetState) (cd : Dimensions) (bi : Int) (ig : Bool)
    (h : ¬ (DimValid sheet.width ∧ DimValid sheet.height)) :
    handleDone sheet cd bi ig =
      ({ sheet with
          widthError := if DimValid sheet.width then "" else widthRangeError
          heightError := if DimValid sheet.height then "" else heightRangeError },
        .noCall) := by
  have hv : (validateDimensions sheet.width sheet.height).isValid = false := by
    cases hb : (validateDimensions sheet.width sheet.height).isValid with
    | false => rfl
    | true => exact absurd ((validateDimensions_isValid_iff _ _).mp hb) h
  unfold handleDone
  dsimp only
  rw [validateDimensions_widthError_eq, validateDimensions_heightError_eq, hv]
  simp

theorem handleDone_valid (sheet : SheetState) (cd : Dimensions) (bi : Int) (ig : Bool)
    (w h : Int) (hw : parseIntJS sheet.width = some w)
    (hh : parseIntJS sheet.height = some h)
    (hwb : 100 ≤ w ∧ w ≤ 1000) (hhb : 100 ≤ h ∧ h ≤ 1000) :
    handleDone sheet cd bi ig =
      ({ sheet with widthError := "", heightError := "" },
        if w ≠ cd.width ∨ h ≠ cd.height ∨ sheet.localBlurIntensity ≠ bi ∨
            sheet.localIsGreyscale ≠ ig then
          .withArgs { width := w, height := h } sheet.localBlurIntensity
            sheet.localIsGreyscale
        else
          .noArgs) := by
  have hdw : DimValid sheet.width := ⟨w, hw, hwb.1, hwb.2⟩
  have hdh : DimValid sheet.height := ⟨h, hh, hhb.1, hhb.2⟩
  have hv : (validateDimensions sheet.width sheet.height).isValid = true :=
    (validateDimensions_isValid_iff _ _).mpr ⟨hdw, hdh⟩
  unfold handleDone
  dsimp only
  rw [validateDimensions_widthError_eq, validateDimensions_heightError_eq, hv,
    if_pos hdw, if_pos hdh]
  simp only [hw, hh, Option.getD_some]
  by_cases hc : w ≠ cd.width ∨ h ≠ cd.height ∨ sheet.localBlurIntensity ≠ bi ∨
    sheet.localIsGreyscale ≠ ig
  · rw [if_pos hc, if_pos trivial, if_pos hc]
  · rw [if_neg hc, if_pos trivial, if_neg hc]

/-- C2: confirming the filter sheet commits (closes the sheet) exactly
when both the width and the height input strings parse to integers in
`[100, 1000]`; otherwise the commit is blocked — each offending field
carries its range error message, each passing field carries none, and
the whole app state, the committed filter included, is left entirely
unchanged. -/
theorem c2_commit_iff_valid_dimensions (env : Env) (app : AppState) (sheet : SheetState)
    (hvis : app.bottomSheetVisible = true) :
    ((doneClick env app sheet).1.bottomSheetVisible = false ↔
      DimValid sheet.width ∧ DimValid sheet.height) ∧
    ((doneClick env app sheet).2.1.widthError =
      if DimValid sheet.width then "" else widthRangeError) ∧
    ((doneClick env app sheet).2.1.heightError =
      if DimValid sheet.height then "" else heightRangeError) ∧
    (¬ (DimValid sheet.width ∧ DimValid sheet.height) →
      (doneClick env app sheet).1 = app) := by
  by_cases hv : DimValid sheet.width ∧ DimValid sheet.height
  · obtain ⟨⟨w, hw, hw1, hw2⟩, ⟨h, hh, hh1, hh2⟩⟩ := hv
    have hvd : DimValid sheet.width := ⟨w, hw, hw1, hw2⟩
    have hvd' : DimValid sheet.height := ⟨h, hh, hh1, hh2⟩
    have hd := handleDone_valid sheet app.imageDimensions app.blurIntensity
      app.isGreyscale w h hw hh ⟨hw1, hw2⟩ ⟨hh1, hh2⟩
    by_cases hc : w ≠ app.imageDimensions.width ∨ h ≠ app.imageDimensions.height ∨
        sheet.localBlurIntensity ≠ app.blurIntensity ∨
        sheet.localIsGreyscale ≠ app.isGreyscale
    · rw [if_pos hc] at hd
      unfold doneClick
      rw [hd]
      dsimp only
      refine ⟨?_, ?_, ?_, ?_⟩
      · simp [(handleBottomSheetClose_some env app { width := w, height := h }
          sheet.localBlurIntensity sheet.localIsGreyscale).2.2.2.2, hvd, hvd']
      · rw [if_pos hvd]
      · rw [if_pos hvd']
      · intro hcon
        exact absurd ⟨hvd, hvd'⟩ hcon
    · rw [if_neg hc] at hd
      unfold doneClick
      rw [hd]
      dsimp only
      rw [handleBottomSheetClose_none]
      refine ⟨?_, ?_, ?_, ?_⟩
      · simp [hvd, hvd']
      · rw [if_pos hvd]
      · rw [if_pos hvd']
      · intro hcon
        exact absurd ⟨hvd, hvd'⟩ hcon
  · have hd := handleDone_invalid sheet app.imageDimensions app.blurIntensity
      app.isGreyscale hv
    unfold doneClick
    rw [hd]
    dsimp only
    refine ⟨?_, rfl, rfl, fun _ => rfl⟩
    rw [hvis]
    simp [hv]

/-- Witness for C2 at a concrete open app and out-of-range draft. -/
theorem c2_commit_iff_valid_dimensions_witness :
    ((doneClick okEnvA openApp badSheet).1.bottomSheetVisible = false ↔
      DimValid badSheet.width ∧ DimValid badSheet.height) ∧
    ((doneClick okEnvA openApp badSheet).2.1.widthError =
      if DimValid badSheet.width then "" else widthRangeError) ∧
    ((doneClick okEnvA openApp badSheet).2.1.heightError =
      if DimValid badSheet.height then "" else heightRangeError) ∧
    (¬ (DimValid badSheet.width ∧ DimValid badSheet.height) →
      (doneClick okEnvA openApp badSheet).1 = openApp) :=
  c2_commit_iff_valid_dimensions okEnvA openApp badSheet rfl

/-- C4: the claim that confirming a changed valid Filter triggers
exactly one refetch is violated by the code. Evaluating the full
commit-plus-render cycle at a concrete changed commit (committed
900 x 600 / blur 0 / greyscale off, confirmed 300 x 400 / blur 2 /
greyscale on) shows two fetch batches are issued — the explicit
`refreshImages` call of `handleBottomSheetClose` and the re-fired
`useEffect(() => { refreshImages(); }, [refreshImages])` — both under
the newly committed filter; confirming with every field equal to the
committed filter issues no batch, as the claim's second half states. -/
theorem c4_changed_commit_issues_two_batches :
    (doneClickAndEffect okEnvA okEnvB openApp goodSheet).2.2 =
      [{ dims := { width := 300, height := 400 }, blur := 2, greyscale := true },
       { dims := { width := 300, height := 400 }, blur := 2, greyscale := true }] ∧
    (doneClickAndEffect okEnvA okEnvB openApp unchangedSheet).2.2 = [] := by
  exact ⟨rfl, rfl⟩

/-! ## C6: reopening the sheet -/

/-- C6: whenever the filter sheet is (re)opened, every editable field —
width, height, blur, greyscale — is pre-populated from the committed
filter, so the resulting draft does not depend on any abandoned edits in
the prior sheet state. -/
theorem c6_reopen_prepopulates_committed (env : Env) (s : UiState) :
    (stepUi env s .openSheet).sheet.width = toString s.app.imageDimensions.width ∧
    (stepUi env s .openSheet).sheet.height = toString s.app.imageDimensions.height ∧
    (stepUi env s .openSheet).sheet.localBlurIntensity = s.app.blurIntensity ∧
    (stepUi env s .openSheet).sheet.localIsGreyscale = s.app.isGreyscale :=
  ⟨rfl, rfl, rfl, rfl⟩

/-! ## C8: request URLs, the fetch pipeline, and the blur range -/

theorem refreshImages_fst_blurIntensity (env : Env) (cap st : AppState)
    (nd : Option Dimensions) (nb : Option Int) (ng : Option Bool) :
    ((refreshImages env cap st nd nb ng).1).blurIntensity = st.blurIntensity := by
  unfold refreshImages
  dsimp only
  rw [refreshResolve_blurIntensity]

theorem handleDone_fst_localBlurIntensity (sheet : SheetState) (cd : Dimensions)
    (bi : Int) (ig : Bool) :
    (handleDone sheet cd bi ig).1.localBlurIntensity = sheet.localBlurIntensity := by
  unfold handleDone
  dsimp only
  split
  · split <;> rfl
  · rfl

theorem doneClick_snd_localBlurIntensity (env : Env) (app : AppState) (sheet : SheetState) :
    (doneClick env app sheet).2.1.localBlurIntensity = sheet.localBlurIntensity := by
  unfold doneClick
  dsimp only
  cases hd : (handleDone sheet app.imageDimensions app.blurIntensity app.isGreyscale).2 <;>
    dsimp only <;>
    exact handleDone_fst_localBlurIntensity sheet app.imageDimensions app.blurIntensity
      app.isGreyscale

theorem handleDone_snd_withArgs (sheet : SheetState) (cd : Dimensions) (bi : Int)
    (ig : Bool) (d : Dimensions) (b : Int) (g : Bool)
    (h : (handleDone sheet cd bi ig).2 = .withArgs d b g) :
    b = sheet.localBlurIntensity ∧ g = sheet.localIsGreyscale := by
  unfold handleDone at h
  dsimp only at h
  split at h
  · split at h
    · dsimp only at h
      injection h with h1 h2 h3
      exact ⟨h2.symm, h3.symm⟩
    · dsimp only at h
      cases h
  · dsimp only at h
    cases h

theorem doneClick_fst_blurIntensity (env : Env) (app : AppState) (sheet : SheetState) :
    (doneClick env app sheet).1.blurIntensity = app.blurIntensity ∨
    (doneClick env app sheet).1.blurIntensity = sheet.localBlurIntensity := by
  unfold doneClick
  dsimp only
  cases hd : (handleDone sheet app.imageDimensions app.blurIntensity app.isGreyscale).2 with
  | noCall => left; rfl
  | noArgs =>
    left
    rw [handleBottomSheetClose_none]
  | withArgs d b g =>
    obtain ⟨hb, hg⟩ := handleDone_snd_withArgs sheet app.imageDimensions
      app.blurIntensity app.isGreyscale d b g hd
    right
    rw [(handleBottomSheetClose_some env app d b g).2.2.1, hb]

/-- The committed and draft blur intensities stay inside the slider's
declared range in every reachable state. -/
theorem reachableUi_blur_bounds (s : UiState) (hs : ReachableUi s) :
    (0 ≤ s.app.blurIntensity ∧ s.app.blurIntensity ≤ 10) ∧
    (0 ≤ s.sheet.localBlurIntensity ∧ s.sheet.localBlurIntensity ≤ 10) := by
  induction hs with
  | init => refine ⟨⟨?_, ?_⟩, ⟨?_, ?_⟩⟩ <;> decide
  | step env e s hr hvalid ih =>
    cases e with
    | setWidthText t => exact ih
    | setHeightText t => exact ih
    | sliderChange v => exact ⟨ih.1, hvalid⟩
    | greyscaleToggle b => exact ih
    | openSheet => exact ⟨ih.1, ih.1⟩
    | dismissSheet => exact ih
    | pressDone =>
      constructor
      · show 0 ≤ (doneClick env s.app s.sheet).1.blurIntensity ∧
          (doneClick env s.app s.sheet).1.blurIntensity ≤ 10
        rcases doneClick_fst_blurIntensity env s.app s.sheet with h | h <;> rw [h]
        · exact ih.1
        · exact ih.2
      · show 0 ≤ (doneClick env s.app s.sheet).2.1.localBlurIntensity ∧
          (doneClick env s.app s.sheet).2.1.localBlurIntensity ≤ 10
        rw [doneClick_snd_localBlurIntensity]
        exact ih.2
    | pullToRefresh =>
      refine ⟨?_, ih.2⟩
      show 0 ≤ ((refreshImages env s.app { s.app with loading := true, images := [] }
          none none none).1).blurIntensity ∧
        ((refreshImages env s.app { s.app with loading := true, images := [] }
          none none none).1).blurIntensity ≤ 10
      rw [refreshImages_fst_blurIntensity]
      exact ih.1

/-- C8: the randomized image request URL carries a blur query parameter
exactly when the blur level is positive and a grayscale flag exactly
when greyscale is on; every successful fetch takes the image id from the
image response's URL and the photographer from the author field of that
id's info response; and the committed blur intensity is always an
integer in `[0, 10]` in every reachable UI state. -/
theorem c8_fetch_urls_and_blur_range :
    (∀ (w h : Int) (rnd : Nat) (blur : Int) (grey : Bool),
      strContains (imageRequestUrl w h rnd blur grey) "blur=" ↔ 0 < blur) ∧
    (∀ (w h : Int) (rnd : Nat) (blur : Int) (grey : Bool),
      strContains (imageRequestUrl w h rnd blur grey) "grayscale" ↔ grey = true) ∧
    (∀ (env : Env) (index : Nat) (dims : Dimensions) (blur : Int) (grey : Bool)
        (item : ImageItem),
      fetchImageAndPhotographer env index dims blur grey = .ok item →
      ∃ r r', env.fetch (imageRequestUrl dims.width dims.height
          (env.randomNumber index) blur grey) = .ok r ∧
        env.fetch (infoRequestUrl (extractImageId r.url)) = .ok r' ∧
        item.photographer = r'.author) ∧
    (∀ s : UiState, ReachableUi s →
      0 ≤ s.app.blurIntensity ∧ s.app.blurIntensity ≤ 10) := by
  refine ⟨?_, ?_, ?_, ?_⟩
  · intro w h rnd blur grey
    constructor
    · intro hcon
      by_contra hb
      exact b_not_mem_imageRequestUrl w h rnd blur grey hb
        (mem_of_strContains (by decide) hcon)
    · intro hb
      exact strContains_imageRequestUrl_blur w h rnd blur grey hb
  · intro w h rnd blur grey
    constructor
    · intro hcon
      cases grey with
      | true => rfl
      | false =>
        exact absurd (mem_of_strContains (by decide) hcon)
          (g_not_mem_imageRequestUrl w h rnd blur)
    · intro hg
      subst hg
      exact strContains_imageRequestUrl_grayscale w h rnd blur
  · intro env index dims blur grey item hok
    obtain ⟨r, r', h1, h2, heq⟩ :=
      fetchImageAndPhotographer_ok_elim env index dims blur grey item hok
    exact ⟨r, r', h1, h2, by rw [heq]⟩
  · intro s hs
    exact (reachableUi_blur_bounds s hs).1

/-- Witness for C8 at concrete URLs, a concrete environment, and the
initial UI state. -/
theorem c8_fetch_urls_and_blur_range_witness :
    strContains (imageRequestUrl 900 600 1234 5 true) "blur=" ∧
    ¬ strContains (imageRequestUrl 900 600 1234 0 true) "blur=" ∧
    strContains (imageRequestUrl 900 600 1234 5 true) "grayscale" ∧
    ¬ strContains (imageRequestUrl 900 600 1234 5 false) "grayscale" ∧
    (∃ r r', okEnvA.fetch (imageRequestUrl 900 600 (okEnvA.randomNumber 0) 0 false) =
        .ok r ∧
      okEnvA.fetch (infoRequestUrl (extractImageId r.url)) = .ok r' ∧
      itemA0.photographer = r'.author) ∧
    (0 ≤ initialUiState.app.blurIntensity ∧ initialUiState.app.blurIntensity ≤ 10) :=
  ⟨(c8_fetch_urls_and_blur_range.1 900 600 1234 5 true).mpr (by decide),
    fun hcon =>
      absurd ((c8_fetch_urls_and_blur_range.1 900 600 1234 0 true).mp hcon) (by decide),
    (c8_fetch_urls_and_blur_range.2.1 900 600 1234 5 true).mpr rfl,
    fun hcon =>
      absurd ((c8_fetch_urls_and_blur_range.2.1 900 600 1234 5 false).mp hcon)
        (by decide),
    c8_fetch_urls_and_blur_range.2.2.1 okEnvA 0 { width := 900, height := 600 } 0 false
      itemA0 rfl,
    c8_fetch_urls_and_blur_range.2.2.2 initialUiState ReachableUi.init⟩

/-! ## C9: display dimensions and aspect ratio -/

/-- C9: every gallery item fetched at dimensions (w, h) is displayed at
the screen width and at height screenWidth * (h / w), so the displayed
aspect ratio equals the requested one. -/
theorem c9_display_preserves_aspect_ratio (sw w h : ℚ) (hw : w ≠ 0) (hsw : sw ≠ 0) :
    (calculateScaledDimensions sw w h).1 = sw ∧
    (calculateScaledDimensions sw w h).2 = sw * (h / w) ∧
    (calculateScaledDimensions sw w h).2 / (calculateScaledDimensions sw w h).1 = h / w ∧
    (∀ (env : Env) (index : Nat) (dims : Dimensions) (blur : Int) (grey : Bool)
        (item : ImageItem), env.screenWidth = sw → (dims.width : ℚ) = w →
      (dims.height : ℚ) = h →
      fetchImageAndPhotographer env index dims blur grey = .ok item →
      item.width = sw ∧ item.height = sw * (h / w)) := by
  refine ⟨rfl, rfl, ?_, ?_⟩
  · show sw * (h / w) / sw = h / w
    exact mul_div_cancel_left₀ _ hsw
  · intro env index dims blur grey item hsw' hdw hdh hok
    obtain ⟨r, r', h1, h2, heq⟩ :=
      fetchImageAndPhotographer_ok_elim env index dims blur grey item hok
    subst heq
    constructor
    · show (calculateScaledDimensions env.screenWidth (dims.width : ℚ)
        (dims.height : ℚ)).1 = sw
      rw [hsw', hdw, hdh]
      rfl
    · show (calculateScaledDimensions env.screenWidth (dims.width : ℚ)
        (dims.height : ℚ)).2 = sw * (h / w)
      rw [hsw', hdw, hdh]
      rfl

/-- Witness for C9 at a 393-point screen and a 900 x 600 request. -/
theorem c9_display_preserves_aspect_ratio_witness :
    (calculateScaledDimensions 393 900 600).1 = 393 ∧
    (calculateScaledDimensions 393 900 600).2 = 393 * (600 / 900) ∧
    (calculateScaledDimensions 393 900 600).2 / (calculateScaledDimensions 393 900 600).1 =
      600 / 900 ∧
    (∀ (env : Env) (index : Nat) (dims : Dimensions) (blur : Int) (grey : Bool)
        (item : ImageItem), env.screenWidth = 393 → (dims.width : ℚ) = 900 →
      (dims.height : ℚ) = 600 →
      fetchImageAndPhotographer env index dims blur grey = .ok item →
      item.width = 393 ∧ item.height = 393 * (600 / 900)) :=
  c9_display_preserves_aspect_ratio 393 900 600 (by simp) (by simp)

/-! ## C10: synthetic ids -/

/-- C10: the id of the item at index i is the synthetic string "image-i"
derived only from the request index, never from the fetched resource:
it is the same under every environment, so ids repeat across refreshes,
and the ten ids of a batch are pairwise distinct. -/
theorem c10_ids_synthetic_from_index :
    (∀ (env : Env) (index : Nat) (dims : Dimensions) (blur : Int) (grey : Bool)
        (item : ImageItem),
      fetchImageAndPhotographer env index dims blur grey = .ok item →
      item.id = "image-" ++ toString index) ∧
    (∀ (env : Env) (dims : Dimensions) (blur : Int) (grey : Bool)
        (items : List ImageItem),
      batchResults env dims blur grey = .ok items →
      items.map (fun item => item.id) =
        (List.range 10).map (fun i => "image-" ++ toString i)) ∧
    (∀ (env env' : Env) (dims dims' : Dimensions) (blur blur' : Int)
        (grey grey' : Bool) (items items' : List ImageItem),
      batchResults env dims blur grey = .ok items →
      batchResults env' dims' blur' grey' = .ok items' →
      items.map (fun item => item.id) = items'.map (fun item => item.id)) ∧
    ((List.range 10).map (fun i => "image-" ++ toString i)).Nodup := by
  have hid : ∀ (env : Env) (index : Nat) (dims : Dimensions) (blur : Int) (grey : Bool)
      (item : ImageItem),
      fetchImageAndPhotographer env index dims blur grey = .ok item →
      item.id = "image-" ++ toString index := by
    intro env index dims blur grey item hok
    obtain ⟨r, r', h1, h2, heq⟩ :=
      fetchImageAndPhotographer_ok_elim env index dims blur grey item hok
    rw [heq]
  have hmap : ∀ (env : Env) (dims : Dimensions) (blur : Int) (grey : Bool)
      (items : List ImageItem),
      batchResults env dims blur grey = .ok items →
      items.map (fun item => item.id) =
        (List.range 10).map (fun i => "image-" ++ toString i) := by
    intro env dims blur grey items hok
    obtain ⟨hlen, hpt⟩ := batchResults_ok_pointwise env dims blur grey items hok
    apply List.ext_get?
    intro n
    by_cases hn : n < 10
    · obtain ⟨item, hget, hfetch⟩ := hpt n hn
      rw [List.get?_map, List.get?_map, List.get?_range hn, hget]
      simp only [Option.map_some']
      rw [hid env n dims blur grey item hfetch]
    · rw [List.get?_map, List.get?_map]
      rw [List.get?_eq_none.mpr (by rw [hlen]; exact Nat.le_of_not_lt hn),
        List.get?_eq_none.mpr (by simpa using Nat.le_of_not_lt hn)]
      rfl
  refine ⟨hid, hmap, ?_, by decide⟩
  intro env env' dims dims' blur blur' grey grey' items items' h1 h2
  rw [hmap env dims blur grey items h1, hmap env' dims' blur' grey' items' h2]

/-- Witness for C10 at two different concrete environments. -/
theorem c10_ids_synthetic_from_index_witness :
    itemsA.map (fun item => item.id) =
      (List.range 10).map (fun i => "image-" ++ toString i) ∧
    itemsA.map (fun item => item.id) = itemsB.map (fun item => item.id) :=
  ⟨c10_ids_synthetic_from_index.2.1 okEnvA { width := 900, height := 600 } 0 false
      itemsA rfl,
    c10_ids_synthetic_from_index.2.2.1 okEnvA okEnvB { width := 900, height := 600 }
      { width := 900, height := 600 } 0 0 false false itemsA itemsB rfl rfl⟩

end LoremPicsum
